import Mathlib

/-!
Shallow embedding, in Lean 4, of the simulation core of `src/main.rs`
(a Bevy stress-test application): the batch entity spawner, the parallel
per-frame transform updater, and the windowed FPS telemetry aggregator.

Conventions of the embedding:
* Rust `u32` counters are modelled as `Nat` reduced modulo `2^32`
  (release-mode wrapping arithmetic).
* Rust `f32` values are modelled as exact rationals `ℚ`, except where the
  IEEE-754 infinity produced by `1.0 / 0.0` is observable; there the type
  `F32` (a rational or positive infinity) is used.  None of the properties
  below depends on rounding of finite values.
* The trigonometric functions used by quaternion construction are kept
  abstract as a parameter `sc : SinCos`; theorems that need exact values
  (only `sin 0 = 0` and `cos 0 = 1`, which hold exactly for IEEE `f32`)
  take them as hypotheses.
-/

set_option maxRecDepth 4000

/-- Constant `COUNT: u32 = 10_000` of `spawn_stress_shapes`. -/
def BATCH_SIZE : Nat := 10000

/-- Modulus of Rust `u32` arithmetic. -/
def U32_MOD : Nat := 2 ^ 32

/-- Resource `SimulationStats` of `main.rs` (fields `batch_count : u32`,
`total_entities : u32`, `last_5s_log : f32`). -/
structure SimulationStats where
  batch_count : Nat
  total_entities : Nat
  last_5s_log : ℚ
  deriving Repr, DecidableEq

/-- The initial resource inserted in `main`:
`SimulationStats { batch_count: 0, total_entities: 1, last_5s_log: 0.0 }`. -/
def initialStats : SimulationStats :=
  { batch_count := 0, total_entities := 1, last_5s_log := 0 }

/-- Counter effect of one run of the system `spawn_stress_shapes`:
when the space key was just pressed, `batch_count += 1` and
`total_entities += COUNT` (wrapping `u32` additions); otherwise no change. -/
def spawn_stress_shapes (pressed : Bool) (s : SimulationStats) : SimulationStats :=
  if pressed then
    { s with
      batch_count := (s.batch_count + 1) % U32_MOD,
      total_entities := (s.total_entities + BATCH_SIZE) % U32_MOD }
  else s

/-- Running the spawner over a sequence of frames, `triggers` giving the
per-frame value of `input.just_pressed(KeyCode::Space)`. -/
def runTriggers (triggers : List Bool) (s : SimulationStats) : SimulationStats :=
  triggers.foldl (fun st t => spawn_stress_shapes t st) s

/-- Rust `f32::clamp(self, min, max)`:
`if self < min { min } else if self > max { max } else { self }`. -/
def clampf (x lo hi : ℚ) : ℚ := if x < lo then lo else if x > hi then hi else x

/-- The `rotation_speed` stored in every `AnimatedShape` of a batch, from
`spawn_stress_shapes`: `0.5 + (stats.batch_count as f32 * 0.03).clamp(0.0, 0.5)`,
where `b` is the value of `stats.batch_count` after the increment, i.e. the
1-based batch number.  It does not depend on the entity index. -/
def batchRotationSpeed (b : Nat) : ℚ := 1/2 + clampf ((b : ℚ) * (3/100)) 0 (1/2)

/-- An `f32` value as observed by the telemetry code: a finite rational or
positive infinity (IEEE `1.0f32 / 0.0` is `+∞`).  Negative infinity and NaN
are unreachable here: `delta_secs()` is non-negative and every accumulated
term is non-negative or `+∞`. -/
inductive F32 where
  | fin : ℚ → F32
  | inf : F32
  deriving Repr, DecidableEq

/-- IEEE `f32` addition restricted to the reachable values (exact on
finite values; rounding of finite sums is not load-bearing for any claim). -/
def F32.add : F32 → F32 → F32
  | F32.fin a, F32.fin b => F32.fin (a + b)
  | _, _ => F32.inf

/-- Division of an accumulated `f32` by a `u32` count cast to `f32`
(`rolling_sum / sample_count as f32`); callers only divide by a positive
count. -/
def F32.divNat : F32 → Nat → F32
  | F32.fin a, n => F32.fin (a / (n : ℚ))
  | F32.inf, _ => F32.inf

/-- Computation `let fps = 1.0 / time.delta_secs()` under IEEE `f32` semantics: `+∞`
when `delta_secs` is `0.0`, the reciprocal otherwise (`delta_secs` is
non-negative in Bevy). -/
def instantaneousFps (dt : ℚ) : F32 :=
  if dt = 0 then F32.inf else F32.fin (1 / dt)

/-- Quaternion with `f32` components, as `glam::Quat` (`x`, `y`, `z`, `w`). -/
structure Quat where
  x : ℚ
  y : ℚ
  z : ℚ
  w : ℚ
  deriving Repr, DecidableEq

/-- Hamilton product, as implemented by `glam::Quat` multiplication. -/
def Quat.mul (a b : Quat) : Quat :=
  { x := a.w * b.x + a.x * b.w + a.y * b.z - a.z * b.y
    y := a.w * b.y - a.x * b.z + a.y * b.w + a.z * b.x
    z := a.w * b.z + a.x * b.y - a.y * b.x + a.z * b.w
    w := a.w * b.w - a.x * b.x - a.y * b.y - a.z * b.z }

/-- Abstract sine/cosine pair standing for the `f32` trigonometric
functions used by `Quat::from_rotation_*`; the exact values a proof needs
(only `sin 0 = 0` and `cos 0 = 1`, which hold exactly in IEEE `f32`) are
taken as hypotheses. -/
structure SinCos where
  sin : ℚ → ℚ
  cos : ℚ → ℚ

/-- Model of `Quat::from_rotation_x(angle)`: `(sin(angle * 0.5), 0, 0, cos(angle * 0.5))`. -/
def fromRotX (sc : SinCos) (angle : ℚ) : Quat :=
  ⟨sc.sin (angle * (1/2)), 0, 0, sc.cos (angle * (1/2))⟩

/-- Model of `Quat::from_rotation_y(angle)`: `(0, sin(angle * 0.5), 0, cos(angle * 0.5))`. -/
def fromRotY (sc : SinCos) (angle : ℚ) : Quat :=
  ⟨0, sc.sin (angle * (1/2)), 0, sc.cos (angle * (1/2))⟩

/-- Model of `Quat::from_rotation_z(angle)`: `(0, 0, sin(angle * 0.5), cos(angle * 0.5))`. -/
def fromRotZ (sc : SinCos) (angle : ℚ) : Quat :=
  ⟨0, 0, sc.sin (angle * (1/2)), sc.cos (angle * (1/2))⟩

/-- Vector `glam::Vec3` with `f32` components. -/
structure Vec3 where
  x : ℚ
  y : ℚ
  z : ℚ
  deriving Repr, DecidableEq

/-- Bevy `Transform` (translation, rotation, scale). -/
structure Transform where
  translation : Vec3
  rotation : Quat
  scale : Vec3
  deriving Repr, DecidableEq

/-- Method `Transform::rotate(q)`: `self.rotation = q * self.rotation`
(rotation applied in the parent/world frame). -/
def Transform.rotate (t : Transform) (q : Quat) : Transform :=
  { t with rotation := q.mul t.rotation }

/-- Method `Transform::rotate_x(angle)` = `rotate(Quat::from_rotation_x(angle))`. -/
def Transform.rotateX (sc : SinCos) (t : Transform) (angle : ℚ) : Transform :=
  t.rotate (fromRotX sc angle)

/-- Method `Transform::rotate_y(angle)` = `rotate(Quat::from_rotation_y(angle))`. -/
def Transform.rotateY (sc : SinCos) (t : Transform) (angle : ℚ) : Transform :=
  t.rotate (fromRotY sc angle)

/-- Method `Transform::rotate_z(angle)` = `rotate(Quat::from_rotation_z(angle))`. -/
def Transform.rotateZ (sc : SinCos) (t : Transform) (angle : ℚ) : Transform :=
  t.rotate (fromRotZ sc angle)

/-- Component `AnimatedShape` of `main.rs`. -/
structure AnimatedShape where
  rotation_speed : ℚ
  deriving Repr, DecidableEq

/-- The per-entity closure body of `animate_shapes_parallel`:
`rotate_y(dt * speed); rotate_x(dt * speed * 0.7); rotate_z(dt * speed * 0.3)`. -/
def animateShape (sc : SinCos) (delta_seconds : ℚ) (transform : Transform)
    (shape : AnimatedShape) : Transform :=
  let speed := shape.rotation_speed
  let t1 := Transform.rotateY sc transform (delta_seconds * speed)
  let t2 := Transform.rotateX sc t1 (delta_seconds * speed * (7/10))
  let t3 := Transform.rotateZ sc t2 (delta_seconds * speed * (3/10))
  t3

/-- The update step as claim C7 words it — per-axis weights X = 1.0,
Y = 0.7, Z = 0.3 — written only for comparison with `animateShape`
(which is the translation of the source). -/
def animateShapeClaimC7 (sc : SinCos) (delta_seconds : ℚ) (transform : Transform)
    (shape : AnimatedShape) : Transform :=
  let speed := shape.rotation_speed
  let t1 := Transform.rotateY sc transform (delta_seconds * speed * (7/10))
  let t2 := Transform.rotateX sc t1 (delta_seconds * speed)
  let t3 := Transform.rotateZ sc t2 (delta_seconds * speed * (3/10))
  t3

/-- A concrete trig assignment used to evaluate the model on concrete
inputs: any assignment that is injective near the sampled angles (as the
IEEE `sin` is on `[0, 1]`) distinguishes the rotation factors; this one
also satisfies `sin 0 = 0` and `cos 0 = 1` exactly, like IEEE `f32`. -/
def scProbe : SinCos := { sin := fun q => q, cos := fun _ => 1 }

/-- The identity transform (`Transform::from_xyz(0,0,0)` scale 1). -/
def idTransform : Transform :=
  { translation := ⟨0, 0, 0⟩, rotation := ⟨0, 0, 0, 1⟩, scale := ⟨1, 1, 1⟩ }

/-- The per-entity update of `animate_shapes_parallel` as a function on the
pair stored for one entity; it reads nothing but that pair and `dt`. -/
def stepEntity (sc : SinCos) (delta_seconds : ℚ) (e : Transform × AnimatedShape) :
    Transform × AnimatedShape :=
  (animateShape sc delta_seconds e.1 e.2, e.2)

/-- Apply `f` to the element at position `i` of a list (no effect when `i`
is out of range): one worker processing one entity of the store. -/
def applyAt {α : Type _} (f : α → α) : List α → Nat → List α
  | [], _ => []
  | a :: as, 0 => f a :: as
  | a :: as, n + 1 => a :: applyAt f as n

/-- Process the population in the index order `order`: an arbitrary
flattened schedule of the `par_iter_mut` fan-out (any partition of the
store interleaved in any way is such an order). -/
def runSchedule {α : Type _} (f : α → α) (pop : List α) (order : List Nat) : List α :=
  order.foldl (applyAt f) pop

/-- Iterate the per-frame animation update over a sequence of frame
deltas, for one entity. -/
def runFrames (sc : SinCos) (dts : List ℚ) (e : Transform × AnimatedShape) :
    Transform × AnimatedShape :=
  dts.foldl (fun acc dt => stepEntity sc dt acc) e

/-- Component `FpsCounter` of `main.rs`: `samples : VecDeque<f32>` (head of
the list = front of the deque), `last_update`, `sample_start`,
`rolling_sum : f32`, `sample_count : u32`. -/
structure FpsCounter where
  samples : List F32
  last_update : ℚ
  sample_start : ℚ
  rolling_sum : F32
  sample_count : Nat
  deriving Repr, DecidableEq

/-- The `FpsCounter` spawned in `setup_scene`. -/
def initialFpsCounter : FpsCounter :=
  { samples := [], last_update := 0, sample_start := 0,
    rolling_sum := F32.fin 0, sample_count := 0 }

/-- Display string of `update_fps_display` with the numeric rendering abstracted
as `fmt0`. -/
def fpsText (fmt0 : F32 → String) (avg : F32) : String := "FPS: " ++ fmt0 avg

/-- One run of the system `update_fps_display` on one `(Text, FpsCounter)`
query item.  `current_time = time.elapsed_secs()`, `dt = time.delta_secs()`;
`fmt0` abstracts the `{:.0}` rendering.  Returns the text and counter after
the run. -/
def update_fps_display (fmt0 : F32 → String) (current_time dt : ℚ)
    (text : String) (fc : FpsCounter) : String × FpsCounter :=
  let fps := instantaneousFps dt
  let fc1 :=
    if current_time - fc.sample_start ≥ 3 then
      { fc with rolling_sum := F32.fin 0, sample_count := 0, sample_start := current_time }
    else fc
  let fc2 :=
    { fc1 with rolling_sum := fc1.rolling_sum.add fps,
               sample_count := (fc1.sample_count + 1) % U32_MOD }
  let res : String × FpsCounter :=
    if current_time - fc2.last_update ≥ 1 then
      (if fc2.sample_count > 0 then
         fpsText fmt0 (fc2.rolling_sum.divNat fc2.sample_count)
       else text,
       { fc2 with last_update := current_time })
    else (text, fc2)
  let fc3 : FpsCounter := { res.2 with samples := res.2.samples ++ [fps] }
  let fc4 : FpsCounter :=
    if fc3.samples.length > 150 then { fc3 with samples := fc3.samples.tail }
    else fc3
  (res.1, fc4)

/-- The `println!` line of `log_fps_periodic`:
`"[{:.1}s] Entities: {}, 3-sec Avg FPS: {:.1}"`, with the `{:.1}` numeric
rendering abstracted as `fmt1`. -/
def reportLine (fmt1 : F32 → String) (elapsed : ℚ) (total_entities : Nat)
    (avg : F32) : String :=
  "[" ++ fmt1 (F32.fin elapsed) ++ "s] Entities: " ++ toString total_entities
    ++ ", 3-sec Avg FPS: " ++ fmt1 avg

/-- One run of the system `log_fps_periodic`.  `counter` is the result of
`query.get_single()` (`some fc` iff exactly one `FpsCounter` entity
exists).  Returns the optionally printed line and the updated stats
resource. -/
def log_fps_periodic (fmt1 : F32 → String) (current_time : ℚ)
    (stats : SimulationStats) (counter : Option FpsCounter) :
    Option String × SimulationStats :=
  if current_time - stats.last_5s_log ≥ 5 then
    let line :=
      match counter with
      | some fps_counter =>
          let three_sec_avg :=
            if fps_counter.sample_count > 0 then
              fps_counter.rolling_sum.divNat fps_counter.sample_count
            else if ¬ fps_counter.samples.isEmpty then
              (fps_counter.samples.foldl F32.add (F32.fin 0)).divNat fps_counter.samples.length
            else F32.fin 0
          some (reportLine fmt1 current_time stats.total_entities three_sec_avg)
      | none => none
    (line, { stats with last_5s_log := current_time })
  else (none, stats)

/-- State observed by the change-detection gate of `update_entity_display`:
the stats resource, whether the `SimulationStats` change tick is newer than
the last run of `update_entity_display` (`stats.is_changed()`: true iff
some system wrote the resource through `ResMut` since that run, and true on
the first run after `insert_resource`), and the entity-count text. -/
structure DisplayFrameState where
  stats : SimulationStats
  statsChanged : Bool
  entityText : String
  deriving Repr, DecidableEq

/-- One run of `update_entity_display`: rewrites the text iff
`stats.is_changed()`.  The second component records whether the text was
(re)written on this run. -/
def update_entity_display (st : DisplayFrameState) : DisplayFrameState × Bool :=
  if st.statsChanged then
    ({ st with entityText := "Entities: " ++ toString st.stats.total_entities,
               statsChanged := false }, true)
  else (st, false)

/-- One frame of the `Update` schedule restricted to the three systems that
touch `SimulationStats`, in the admissible order `spawn_stress_shapes`;
`log_fps_periodic`; `update_entity_display` (the systems are added with no
ordering constraint, so some schedule of this shape occurs).  Writes
through `ResMut` mark the resource changed: the spawner when a batch
fires, and `log_fps_periodic` whenever its 5-second branch assigns
`stats.last_5s_log`. -/
def frameEntityDisplay (fmt1 : F32 → String) (pressed : Bool) (current_time : ℚ)
    (counter : Option FpsCounter) (st : DisplayFrameState) :
    DisplayFrameState × Bool :=
  let stats1 := spawn_stress_shapes pressed st.stats
  let changed1 := st.statsChanged || pressed
  let logged := log_fps_periodic fmt1 current_time stats1 counter
  let changed2 := if current_time - stats1.last_5s_log ≥ 5 then true else changed1
  update_entity_display
    { stats := logged.2, statsChanged := changed2, entityText := st.entityText }

theorem U32_MOD_eq : U32_MOD = 4294967296 := by norm_num [U32_MOD]

/-- Auxiliary: the spawner acts on the two counters by wrapping addition,
for any start state with reduced counters. -/
theorem runTriggers_counters (triggers : List Bool) :
    ∀ s : SimulationStats, s.batch_count < U32_MOD → s.total_entities < U32_MOD →
      (runTriggers triggers s).batch_count
          = (s.batch_count + triggers.count true) % U32_MOD ∧
      (runTriggers triggers s).total_entities
          = (s.total_entities + triggers.count true * BATCH_SIZE) % U32_MOD := by
  induction triggers with
  | nil =>
    intro s hb ht
    simp only [runTriggers, List.foldl_nil, List.count_nil]
    rw [U32_MOD_eq] at hb ht ⊢
    omega
  | cons hd tl ih =>
    intro s hb ht
    cases hd with
    | false =>
      have h : runTriggers (false :: tl) s = runTriggers tl s := by
        simp [runTriggers, spawn_stress_shapes]
      rw [h]
      obtain ⟨h1, h2⟩ := ih s hb ht
      simp only [h1, h2, List.count_cons]
      refine ⟨by norm_num, by norm_num⟩
    | true =>
      have hM : 0 < U32_MOD := by rw [U32_MOD_eq]; omega
      have h : runTriggers (true :: tl) s =
          runTriggers tl
            { s with
              batch_count := (s.batch_count + 1) % U32_MOD,
              total_entities := (s.total_entities + BATCH_SIZE) % U32_MOD } := by
        simp [runTriggers, spawn_stress_shapes]
      rw [h]
      obtain ⟨h1, h2⟩ := ih
        { s with
          batch_count := (s.batch_count + 1) % U32_MOD,
          total_entities := (s.total_entities + BATCH_SIZE) % U32_MOD }
        (Nat.mod_lt _ hM) (Nat.mod_lt _ hM)
      rw [h1, h2]
      simp only [List.count_cons, BATCH_SIZE]
      rw [U32_MOD_eq]
      constructor
      · norm_num
        omega
      · norm_num
        omega

/-- C1: starting from the initial state (`total_entities = 1`,
`batch_count = 0`), any sequence of frames containing `b` spawn triggers
(each a successful batch, assuming the `u32` counters do not overflow)
ends with `total_entities = 1 + b * BATCH_SIZE` and `batch_count = b`;
the counters are touched only by the spawner, which adds `1` and
`BATCH_SIZE` respectively per trigger. -/
theorem growth_invariant (triggers : List Bool)
    (hno : 1 + triggers.count true * BATCH_SIZE < U32_MOD) :
    (runTriggers triggers initialStats).total_entities
        = 1 + triggers.count true * BATCH_SIZE ∧
    (runTriggers triggers initialStats).batch_count = triggers.count true := by
  have hlt : (1 : Nat) < U32_MOD := by rw [U32_MOD_eq]; omega
  obtain ⟨h1, h2⟩ := runTriggers_counters triggers initialStats
    (by simpa [initialStats] using Nat.lt_of_lt_of_le Nat.zero_lt_one hlt.le) (by simpa [initialStats] using hlt)
  have hb : triggers.count true < U32_MOD := by
    have hle : triggers.count true ≤ triggers.count true * BATCH_SIZE := by
      have h1B : 1 ≤ BATCH_SIZE := by norm_num [BATCH_SIZE]
      calc triggers.count true = triggers.count true * 1 := by ring
        _ ≤ triggers.count true * BATCH_SIZE := Nat.mul_le_mul_left _ h1B
    omega
  refine ⟨?_, ?_⟩
  · rw [h2]
    show (1 + triggers.count true * BATCH_SIZE) % U32_MOD = 1 + triggers.count true * BATCH_SIZE
    exact Nat.mod_eq_of_lt hno
  · rw [h1]
    show (0 + triggers.count true) % U32_MOD = triggers.count true
    rw [Nat.zero_add]
    exact Nat.mod_eq_of_lt hb

/-- Witness for C1: two spawn triggers interleaved with idle frames give
`total_entities = 20001` and `batch_count = 2`. -/
theorem growth_invariant_witness :
    1 + ([false, true, false, true] : List Bool).count true * BATCH_SIZE < U32_MOD ∧
    (runTriggers [false, true, false, true] initialStats).total_entities = 20001 ∧
    (runTriggers [false, true, false, true] initialStats).batch_count = 2 := by
  refine ⟨by decide, ?_, ?_⟩
  · have h := (growth_invariant [false, true, false, true] (by decide)).1
    simpa using h
  · have h := (growth_invariant [false, true, false, true] (by decide)).2
    simpa using h

theorem clampf_of_mem (x lo hi : ℚ) (h0 : lo ≤ x) (h1 : x ≤ hi) :
    clampf x lo hi = x := by
  unfold clampf
  rw [if_neg (by linarith), if_neg (by linarith)]

/-- C2 counterexample: with the source formula
`0.5 + (batch_count * 0.03).clamp(0.0, 0.5)`, batch 2 entities receive
rotation speed `0.56` and batch 1 entities `0.53` — the batch-2 speed is
strictly greater than the batch-1 speed, not lower, refuting the claimed
strict decrease (and the claimed formula `clamp(1.0 - b * SPEED_DECAY, ...)`). -/
theorem rotation_speed_claim_false :
    batchRotationSpeed 1 = 53/100 ∧ batchRotationSpeed 2 = 56/100 ∧
    ¬ batchRotationSpeed 2 < batchRotationSpeed 1 := by
  refine ⟨?_, ?_, ?_⟩ <;> norm_num [batchRotationSpeed, clampf]

/-- C2 (amended): the rotation speed assigned to a batch follows
`0.5 + clamp(b * 0.03, 0.0, 0.5)` and is strictly INCREASING in the batch
number while the clamp is not saturated (`(b+1) * 0.03 ≤ 0.5`); in
particular batch 2 entities receive a speed distinct from and higher than
batch 1 entities. -/
theorem rotation_speed_increasing (b : Nat) (h : ((b : ℚ) + 1) * (3/100) ≤ 1/2) :
    batchRotationSpeed b < batchRotationSpeed (b + 1) := by
  have h0 : (0 : ℚ) ≤ (b : ℚ) * (3/100) := by positivity
  have hb : (b : ℚ) * (3/100) ≤ 1/2 := by linarith
  have h0s : (0 : ℚ) ≤ ((b : ℚ) + 1) * (3/100) := by positivity
  unfold batchRotationSpeed
  push_cast
  rw [clampf_of_mem _ _ _ h0 hb, clampf_of_mem _ _ _ h0s h]
  linarith

/-- Witness for the amended C2 at batches 1 and 2. -/
theorem rotation_speed_increasing_witness :
    (((1 : Nat) : ℚ) + 1) * (3/100) ≤ 1/2 ∧ batchRotationSpeed 1 < batchRotationSpeed 2 :=
  ⟨by norm_num, rotation_speed_increasing 1 (by norm_num)⟩

/-- C7 counterexample: at `dt = 1`, unit rotation speed, identity
transform, and the probe trig assignment, the source update and the
claimed-weights update (X = 1.0, Y = 0.7) produce different rotations;
the code feeds `dt * speed * 0.7` to the X-axis rotation and the full
`dt * speed` to the Y-axis rotation, the converse of the claim. -/
theorem axis_weights_claim_false :
    animateShape scProbe 1 idTransform ⟨1⟩ ≠ animateShapeClaimC7 scProbe 1 idTransform ⟨1⟩ ∧
    fromRotX scProbe (1 * 1 * (7/10)) ≠ fromRotX scProbe (1 * 1) := by
  constructor
  · intro h
    have hx := congrArg (fun t => t.rotation.x) h
    simp only [animateShape, animateShapeClaimC7, Transform.rotateX, Transform.rotateY,
      Transform.rotateZ, Transform.rotate, fromRotX, fromRotY, fromRotZ, Quat.mul,
      scProbe, idTransform] at hx
    norm_num at hx
  · intro h
    have hx := congrArg (fun q => q.x) h
    simp only [fromRotX, scProbe] at hx
    norm_num at hx

/-- C7 (amended): each frame the updater composes, onto the existing
rotation and leaving translation and scale alone, incremental rotations
about the Y, X and Z axes with angles `dt * rotation_speed` times the
per-axis weights Y = 1.0, X = 0.7, Z = 0.3 (the X and Y weights are the
transpose of the claim). -/
theorem multi_axis_rotation (sc : SinCos) (dt : ℚ) (tr : Transform) (sh : AnimatedShape) :
    animateShape sc dt tr sh
      = Transform.mk tr.translation
          ((fromRotZ sc (dt * sh.rotation_speed * (3/10))).mul
            ((fromRotX sc (dt * sh.rotation_speed * (7/10))).mul
              ((fromRotY sc (dt * sh.rotation_speed)).mul tr.rotation)))
          tr.scale := rfl

/-- C3 counterexample: on a `dt = 0` frame the instantaneous FPS computed
by `1.0 / delta_secs()` is `+∞`, not `0`, and `+∞` is what the aggregator
accumulates into `rolling_sum` for that frame. -/
theorem dt_zero_fps_claim_false :
    instantaneousFps 0 = F32.inf ∧ F32.inf ≠ F32.fin 0 ∧
    (update_fps_display (fun _ => "") 1 0 "" initialFpsCounter).2.rolling_sum = F32.inf := by
  refine ⟨rfl, by decide, ?_⟩
  norm_num [update_fps_display, initialFpsCounter, instantaneousFps, F32.add, fpsText, F32.divNat]

/-- C3 (amended): on a `dt = 0` frame no rotation changes (the three
incremental angles are all `0`), and the instantaneous FPS computed and
accumulated for that frame is `+∞` (IEEE `1.0 / 0.0`) — not `0`;
for every `dt ≠ 0` the instantaneous FPS is the finite value `1 / dt`. -/
theorem dt_zero_frame (sc : SinCos) (hs : sc.sin 0 = 0) (hc : sc.cos 0 = 1)
    (tr : Transform) (sh : AnimatedShape) (dt : ℚ) (hdt : dt ≠ 0) :
    animateShape sc 0 tr sh = tr ∧ instantaneousFps 0 = F32.inf ∧
    instantaneousFps dt = F32.fin (1 / dt) := by
  refine ⟨?_, rfl, by simp [instantaneousFps, hdt]⟩
  obtain ⟨⟨tx, ty, tz⟩, ⟨qx, qy, qz, qw⟩, ⟨sx, sy, sz⟩⟩ := tr
  simp only [animateShape, Transform.rotateX, Transform.rotateY, Transform.rotateZ,
    Transform.rotate, fromRotX, fromRotY, fromRotZ, Quat.mul, zero_mul, hs, hc]
  simp only [Transform.mk.injEq, Quat.mk.injEq]
  norm_num

/-- Witness for the amended C3 with the probe trig assignment and a
concrete transform. -/
theorem dt_zero_frame_witness :
    scProbe.sin 0 = 0 ∧ scProbe.cos 0 = 1 ∧ (1 : ℚ) ≠ 0 ∧
    (animateShape scProbe 0 idTransform ⟨1⟩ = idTransform ∧
     instantaneousFps 0 = F32.inf ∧
     instantaneousFps 1 = F32.fin (1 / 1)) :=
  ⟨rfl, rfl, one_ne_zero,
   dt_zero_frame scProbe rfl rfl idTransform ⟨1⟩ 1 one_ne_zero⟩

/-- C9: across any sequence of frames, the per-frame updater never touches
`rotation_speed` (it keeps the value assigned at spawn time forever), and
never touches the translation or scale of the entity; only `rotation` changes. -/
theorem only_rotation_mutates (sc : SinCos) (dts : List ℚ) (e : Transform × AnimatedShape) :
    (runFrames sc dts e).2 = e.2 ∧
    (runFrames sc dts e).1.translation = e.1.translation ∧
    (runFrames sc dts e).1.scale = e.1.scale := by
  induction dts generalizing e with
  | nil => exact ⟨rfl, rfl, rfl⟩
  | cons dt rest ih =>
    have hstep : runFrames sc (dt :: rest) e = runFrames sc rest (stepEntity sc dt e) := rfl
    rw [hstep]
    obtain ⟨h1, h2, h3⟩ := ih (stepEntity sc dt e)
    exact ⟨h1, h2, h3⟩

theorem applyAt_get? {α : Type _} (f : α → α) (l : List α) (i j : Nat) :
    (applyAt f l i).get? j = if j = i then (l.get? j).map f else l.get? j := by
  induction l generalizing i j with
  | nil => simp [applyAt]
  | cons a as ih =>
    cases i with
    | zero =>
      cases j with
      | zero => simp [applyAt]
      | succ m => simp [applyAt]
    | succ n =>
      cases j with
      | zero => simp [applyAt]
      | succ m =>
        have h : (applyAt f (a :: as) (n + 1)).get? (m + 1) = (applyAt f as n).get? m := rfl
        rw [h, ih]
        by_cases hmn : m = n
        · simp [hmn]
        · rw [if_neg hmn, if_neg (by omega)]
          rfl

theorem runSchedule_get? {α : Type _} (f : α → α) (order : List Nat) :
    ∀ (pop : List α) (j : Nat),
      (runSchedule f pop order).get? j = (pop.get? j).map f^[order.count j] := by
  induction order with
  | nil =>
    intro pop j
    simp [runSchedule]
  | cons i rest ih =>
    intro pop j
    have h : runSchedule f pop (i :: rest) = runSchedule f (applyAt f pop i) rest := rfl
    rw [h, ih, applyAt_get?]
    by_cases hj : j = i
    · subst hj
      rw [if_pos rfl, List.count_cons, if_pos (by simp)]
      rw [Option.map_map, ← Function.iterate_succ]
    · rw [if_neg hj, List.count_cons, if_neg (fun h => hj (eq_of_beq h).symm), Nat.add_zero]

theorem count_range_eq (j n : Nat) : (List.range n).count j = if j < n then 1 else 0 := by
  induction n with
  | zero => simp
  | succ m ih =>
    rw [List.range_succ, List.count_append, ih, List.count_singleton']
    split_ifs <;> omega

theorem runSchedule_perm_map {α : Type _} (f : α → α) (pop : List α) (order : List Nat)
    (h : order.Perm (List.range pop.length)) :
    runSchedule f pop order = pop.map f := by
  apply List.ext_get?_iff.mpr
  intro j
  rw [runSchedule_get?, List.get?_map]
  have hc : order.count j = if j < pop.length then 1 else 0 := by
    rw [h.count_eq, count_range_eq]
  by_cases hj : j < pop.length
  · rw [hc, if_pos hj, Function.iterate_one]
  · have hnone : pop.get? j = none := List.get?_eq_none.mpr (by omega)
    rw [hnone]
    rfl

/-- C8: running the per-frame updater with the entities processed in any
order (hence any partition of `par_iter_mut` work, in any interleaving)
yields exactly the per-entity map of the sequential pass: each update is a
function of only the own record of that entity and `dt`. -/
theorem parallel_order_independence (sc : SinCos) (dt : ℚ)
    (pop : List (Transform × AnimatedShape)) (order : List Nat)
    (hperm : order.Perm (List.range pop.length)) :
    runSchedule (stepEntity sc dt) pop order = pop.map (stepEntity sc dt) :=
  runSchedule_perm_map (stepEntity sc dt) pop order hperm

/-- Witness for C8: a two-entity population processed in reversed order. -/
theorem parallel_order_independence_witness :
    ([1, 0] : List Nat).Perm
        (List.range ([(idTransform, ⟨1⟩), (idTransform, ⟨2⟩)] :
          List (Transform × AnimatedShape)).length) ∧
    runSchedule (stepEntity scProbe 1)
        [(idTransform, ⟨1⟩), (idTransform, ⟨2⟩)] [1, 0]
      = [(idTransform, ⟨1⟩), (idTransform, ⟨2⟩)].map (stepEntity scProbe 1) := by
  have hperm : ([1, 0] : List Nat).Perm [0, 1] := List.Perm.swap 0 1 []
  have hr : (List.range 2) = [0, 1] := rfl
  have hlen : ([(idTransform, (⟨1⟩ : AnimatedShape)), (idTransform, ⟨2⟩)] :
      List (Transform × AnimatedShape)).length = 2 := rfl
  refine ⟨by rw [hlen, hr]; exact hperm, ?_⟩
  exact parallel_order_independence scProbe 1 _ [1, 0] (by rw [hlen, hr]; exact hperm)

theorem F32_zero_add (x : F32) : (F32.fin 0).add x = x := by
  cases x <;> simp [F32.add]

/-- C5: whenever at least `WINDOW_DURATION = 3` seconds have elapsed since
the window start, processing the next frame resets the window: right after
that frame is processed, `rolling_sum` is exactly the instantaneous FPS
of that frame, `sample_count = 1`, and the window start is the current
time. -/
theorem windowed_reset (fmt0 : F32 → String) (current_time dt : ℚ) (text : String)
    (fc : FpsCounter) (h : current_time - fc.sample_start ≥ 3) :
    (update_fps_display fmt0 current_time dt text fc).2.rolling_sum = instantaneousFps dt ∧
    (update_fps_display fmt0 current_time dt text fc).2.sample_count = 1 ∧
    (update_fps_display fmt0 current_time dt text fc).2.sample_start = current_time := by
  have hone : (0 + 1) % U32_MOD = 1 := by rw [U32_MOD_eq]
  simp only [update_fps_display, if_pos h]
  split_ifs <;>
    simp_all [F32_zero_add, hone]

/-- Witness for C5 at a concrete frame (`t = 5`, `dt = 1`) from the
initial counter. -/
theorem windowed_reset_witness :
    (5 : ℚ) - initialFpsCounter.sample_start ≥ 3 ∧
    ((update_fps_display (fun _ => "") 5 1 "" initialFpsCounter).2.rolling_sum
        = instantaneousFps 1 ∧
     (update_fps_display (fun _ => "") 5 1 "" initialFpsCounter).2.sample_count = 1 ∧
     (update_fps_display (fun _ => "") 5 1 "" initialFpsCounter).2.sample_start = 5) :=
  ⟨by norm_num [initialFpsCounter],
   windowed_reset (fun _ => "") 5 1 "" initialFpsCounter (by norm_num [initialFpsCounter])⟩

/-- C10: in `update_fps_display` the sample of the frame is accumulated into
`rolling_sum`/`sample_count` before the 1-second display-refresh check, so
the refresh always sees `sample_count > 0`: the `sample_count == 0` guard
branch is unreachable there, the average never divides by zero, and
whenever the display interval has elapsed the FPS text is rewritten to the
freshly computed average (otherwise it is left alone); after the frame the
`samples` history holds at most 150 entries.  Hypotheses: the history was
within its bound before the frame and the `u32` sample counter does not
wrap (it is reset at least every 3 seconds). -/
theorem fps_display_safety (fmt0 : F32 → String) (current_time dt : ℚ) (text : String)
    (fc : FpsCounter) (hlen : fc.samples.length ≤ 150)
    (hcnt : fc.sample_count + 1 < U32_MOD) :
    0 < (update_fps_display fmt0 current_time dt text fc).2.sample_count ∧
    (update_fps_display fmt0 current_time dt text fc).2.samples.length ≤ 150 ∧
    (current_time - fc.last_update ≥ 1 →
      (update_fps_display fmt0 current_time dt text fc).1
        = fpsText fmt0
            ((update_fps_display fmt0 current_time dt text fc).2.rolling_sum.divNat
              (update_fps_display fmt0 current_time dt text fc).2.sample_count)) ∧
    (¬ current_time - fc.last_update ≥ 1 →
      (update_fps_display fmt0 current_time dt text fc).1 = text) := by
  have hM1 : (0 + 1) % U32_MOD = 1 := by rw [U32_MOD_eq]
  have hM2 : (fc.sample_count + 1) % U32_MOD = fc.sample_count + 1 := Nat.mod_eq_of_lt hcnt
  simp only [update_fps_display]
  split_ifs <;>
    simp_all [fpsText, List.length_append]

/-- Witness for C10 on the first-ever frame of the counter. -/
theorem fps_display_safety_witness :
    initialFpsCounter.samples.length ≤ 150 ∧
    initialFpsCounter.sample_count + 1 < U32_MOD ∧
    (0 < (update_fps_display (fun _ => "avg") 1 1 "FPS: --" initialFpsCounter).2.sample_count ∧
     (update_fps_display (fun _ => "avg") 1 1 "FPS: --" initialFpsCounter).2.samples.length ≤ 150 ∧
     ((1 : ℚ) - initialFpsCounter.last_update ≥ 1 →
       (update_fps_display (fun _ => "avg") 1 1 "FPS: --" initialFpsCounter).1
         = fpsText (fun _ => "avg")
             ((update_fps_display (fun _ => "avg") 1 1 "FPS: --" initialFpsCounter).2.rolling_sum.divNat
               (update_fps_display (fun _ => "avg") 1 1 "FPS: --" initialFpsCounter).2.sample_count)) ∧
     (¬ (1 : ℚ) - initialFpsCounter.last_update ≥ 1 →
       (update_fps_display (fun _ => "avg") 1 1 "FPS: --" initialFpsCounter).1 = "FPS: --")) :=
  ⟨by norm_num [initialFpsCounter], by rw [U32_MOD_eq]; norm_num [initialFpsCounter],
   fps_display_safety (fun _ => "avg") 1 1 "FPS: --" initialFpsCounter
     (by norm_num [initialFpsCounter]) (by rw [U32_MOD_eq]; norm_num [initialFpsCounter])⟩

/-- C6: whenever the 5-second report interval has elapsed and exactly one
`FpsCounter` exists (`get_single` succeeds), `log_fps_periodic` emits the
line `"[{elapsed:.1}s] Entities: {total_entities}, 3-sec Avg FPS: {avg:.1}"`
whose average is, in order of preference, `rolling_sum / sample_count`
when the window has samples, else the mean of the bounded history when it
is non-empty, else `0.0`; it stamps `last_5s_log` with the current time
and leaves the two population counters alone. -/
theorem periodic_report (fmt1 : F32 → String) (current_time : ℚ)
    (stats : SimulationStats) (fc : FpsCounter)
    (h5 : current_time - stats.last_5s_log ≥ 5) :
    (0 < fc.sample_count →
      (log_fps_periodic fmt1 current_time stats (some fc)).1
        = some (reportLine fmt1 current_time stats.total_entities
            (fc.rolling_sum.divNat fc.sample_count))) ∧
    (fc.sample_count = 0 → ¬ fc.samples.isEmpty →
      (log_fps_periodic fmt1 current_time stats (some fc)).1
        = some (reportLine fmt1 current_time stats.total_entities
            ((fc.samples.foldl F32.add (F32.fin 0)).divNat fc.samples.length))) ∧
    (fc.sample_count = 0 → fc.samples.isEmpty →
      (log_fps_periodic fmt1 current_time stats (some fc)).1
        = some (reportLine fmt1 current_time stats.total_entities (F32.fin 0))) ∧
    (log_fps_periodic fmt1 current_time stats (some fc)).2.last_5s_log = current_time ∧
    (log_fps_periodic fmt1 current_time stats (some fc)).2.total_entities
        = stats.total_entities ∧
    (log_fps_periodic fmt1 current_time stats (some fc)).2.batch_count
        = stats.batch_count := by
  simp only [log_fps_periodic, if_pos h5]
  refine ⟨?_, ?_, ?_, by trivial, by trivial, by trivial⟩
  · intro hc
    rw [if_pos hc]
  · intro hc he
    rw [if_neg (by omega), if_pos he]
  · intro hc he
    rw [if_neg (by omega), if_neg (fun hne => hne he)]

/-- Witness for C6 at the first report tick from the initial states (both
fallbacks empty, so the reported average is `0.0`). -/
theorem periodic_report_witness :
    (5 : ℚ) - initialStats.last_5s_log ≥ 5 ∧
    (log_fps_periodic (fun _ => "0.0") 5 initialStats (some initialFpsCounter)).1
      = some (reportLine (fun _ => "0.0") 5 initialStats.total_entities (F32.fin 0)) := by
  have h5 : (5 : ℚ) - initialStats.last_5s_log ≥ 5 := by norm_num [initialStats]
  exact ⟨h5,
    (periodic_report (fun _ => "0.0") 5 initialStats initialFpsCounter h5).2.2.1 rfl rfl⟩

/-- C4 counterexample: a frame with no spawn, six seconds in, starting from
a state whose change tick is old: the 5-second logger writes
`stats.last_5s_log` through `ResMut`, which marks the resource changed, and
`update_entity_display` therefore rewrites the entity-count text even
though `total_entities` did not change — refuting the claimed
"if and only if `total_entities` differs". -/
theorem entity_display_gate_claim_false :
    (frameEntityDisplay (fun _ => "") false 6 none
        ⟨⟨0, 1, 0⟩, false, "Entities: 1"⟩).2 = true ∧
    (frameEntityDisplay (fun _ => "") false 6 none
        ⟨⟨0, 1, 0⟩, false, "Entities: 1"⟩).1.stats.total_entities = 1 := by
  constructor <;>
    norm_num [frameEntityDisplay, spawn_stress_shapes, log_fps_periodic,
      update_entity_display]

/-- C4 (amended): in a frame of the schedule `spawn_stress_shapes`;
`log_fps_periodic`; `update_entity_display`, the entity-count text is
rewritten iff the `SimulationStats` resource was written through `ResMut`
since the display system last ran: iff a batch spawned this frame, or the
5-second report interval elapsed (the logger stamps `last_5s_log`), or the
resource change tick was already newer (e.g. on the first frame after
startup).  A `total_entities` change implies a rewrite, but not
conversely. -/
theorem entity_display_gate (fmt1 : F32 → String) (pressed : Bool)
    (current_time : ℚ) (counter : Option FpsCounter) (st : DisplayFrameState) :
    (frameEntityDisplay fmt1 pressed current_time counter st).2 = true ↔
      (pressed = true ∨ current_time - st.stats.last_5s_log ≥ 5 ∨
        st.statsChanged = true) := by
  have hlog : (spawn_stress_shapes pressed st.stats).last_5s_log
      = st.stats.last_5s_log := by
    unfold spawn_stress_shapes
    split_ifs <;> rfl
  simp only [frameEntityDisplay, update_entity_display, hlog]
  rcases Bool.eq_false_or_eq_true st.statsChanged with hsc | hsc <;>
  rcases Bool.eq_false_or_eq_true pressed with hp | hp <;>
  by_cases h5 : current_time - st.stats.last_5s_log ≥ 5 <;>
  simp [hsc, hp, h5]
